import Mathlib

/-!
Shallow embedding of the book-recommendation service:
`src/app/api/recommend/route.ts` (the recommendation assembler) and the
saved-books route (shelf service).  JavaScript strings are modelled as Lean
`String`; fields that may be `undefined` at runtime are `Option`; JavaScript
truthiness of a string is "present and non-empty", of a number "present and
non-zero".  `fetch` results are supplied through an explicit environment, and
the network calls performed are returned alongside the response.
-/

set_option autoImplicit false

namespace BookRec

/-! ### JavaScript string primitives -/

/-- The JavaScript whitespace class (`\s` in regexes, also what `trim`
strips): ASCII whitespace, NBSP, the Unicode space separators, line/paragraph
separators and the BOM. -/
def isJsWhitespace (c : Char) : Bool :=
  c == ' ' || c == Char.ofNat 9 || c == Char.ofNat 10 || c == Char.ofNat 11 ||
  c == Char.ofNat 12 || c == Char.ofNat 13 || c == Char.ofNat 0xA0 ||
  c == Char.ofNat 0x1680 || (0x2000 ≤ c.toNat && c.toNat ≤ 0x200A) ||
  c == Char.ofNat 0x2028 || c == Char.ofNat 0x2029 || c == Char.ofNat 0x202F ||
  c == Char.ofNat 0x205F || c == Char.ofNat 0x3000 || c == Char.ofNat 0xFEFF

/-- `String.prototype.trim`: strip leading and trailing whitespace. -/
def jsTrim (s : String) : String :=
  String.mk (((s.toList.dropWhile isJsWhitespace).reverse.dropWhile
    isJsWhitespace).reverse)

/-- `String.prototype.length` counts UTF-16 code units: astral-plane
characters count twice. -/
def utf16Length (s : String) : Nat :=
  s.toList.foldl (fun n c => n + (if 0x10000 ≤ c.toNat then 2 else 1)) 0

/-- `String.prototype.toLowerCase`, modelled on the ASCII range (the only
range exercised by the repository's data and examples). -/
def jsLowerChar (c : Char) : Char :=
  if 65 ≤ c.toNat && c.toNat ≤ 90 then Char.ofNat (c.toNat + 32) else c

def jsToLower (s : String) : String :=
  String.mk (s.toList.map jsLowerChar)

/-- `.replace(/[.,]/g, "")`: delete every comma and period. -/
def stripCommasPeriods (l : List Char) : List Char :=
  l.filter (fun c => !(c == ',' || c == '.'))

/-- `.replace(/\s+/g, "_")` as a left-to-right scan: `prevWs` records whether
the previous character belonged to a whitespace run already replaced. -/
def collapseWsAux : Bool → List Char → List Char
  | _, [] => []
  | prevWs, c :: cs =>
    if isJsWhitespace c then
      if prevWs then collapseWsAux true cs
      else '_' :: collapseWsAux true cs
    else c :: collapseWsAux false cs

/-- The subject slug computed by the route handler:
lower-case, strip commas/periods, replace whitespace runs by `_`. -/
def subjectSlug (s : String) : String :=
  String.mk (collapseWsAux false (stripCommasPeriods (jsToLower s).toList))

/-- Replace-runs-of-whitespace as the spec words it: upon meeting whitespace,
emit one underscore and skip the whole run.  Structured over a fuel bound so
the recursion is structural; `specCollapseWs` supplies adequate fuel. -/
def specCollapseWsGo : Nat → List Char → List Char
  | 0, _ => []
  | _ + 1, [] => []
  | fuel + 1, c :: cs =>
    if isJsWhitespace c then
      '_' :: specCollapseWsGo fuel (cs.dropWhile isJsWhitespace)
    else c :: specCollapseWsGo fuel cs

def specCollapseWs (l : List Char) : List Char :=
  specCollapseWsGo l.length l

/-- The slug pipeline as §4.1 of the spec words it. -/
def specSubjectSlug (s : String) : String :=
  String.mk (specCollapseWs (stripCommasPeriods (jsToLower s).toList))

/-! ### `encodeURIComponent` -/

/-- Characters `encodeURIComponent` leaves unescaped. -/
def isUnreservedURIChar (c : Char) : Bool :=
  (65 ≤ c.toNat && c.toNat ≤ 90) || (97 ≤ c.toNat && c.toNat ≤ 122) ||
  (48 ≤ c.toNat && c.toNat ≤ 57) ||
  c == '-' || c == '_' || c == '.' || c == '!' || c == '~' || c == '*' ||
  c == Char.ofNat 39 || c == '(' || c == ')'

/-- Upper-case hexadecimal digit. -/
def uriHexDigit (n : Nat) : Char :=
  if n < 10 then Char.ofNat (48 + n) else Char.ofNat (55 + n)

/-- UTF-8 encoding of one character, as a list of byte values. -/
def utf8BytesOfChar (c : Char) : List Nat :=
  let n := c.toNat
  if n < 0x80 then [n]
  else if n < 0x800 then [0xC0 + n / 64, 0x80 + n % 64]
  else if n < 0x10000 then
    [0xE0 + n / 4096, 0x80 + (n / 64) % 64, 0x80 + n % 64]
  else
    [0xF0 + n / 262144, 0x80 + (n / 4096) % 64, 0x80 + (n / 64) % 64,
     0x80 + n % 64]

def percentEncodeByte (b : Nat) : List Char :=
  ['%', uriHexDigit (b / 16), uriHexDigit (b % 16)]

def encodeURIComponent (s : String) : String :=
  String.mk ((s.toList.map (fun c =>
    if isUnreservedURIChar c then [c]
    else ((utf8BytesOfChar c).map percentEncodeByte).flatten)).flatten)

/-! ### Data model (`route.ts` types) -/

structure SearchDoc where
  key : Option String
  title : Option String
  author_name : Option (List String)
  cover_i : Option Int
  first_publish_year : Option Int
  subject : Option (List String)
  subject_facet : Option (List String)
deriving DecidableEq, Repr

structure AuthorRef where
  name : Option String
deriving DecidableEq, Repr

structure SubjectWork where
  key : Option String
  title : Option String
  authors : Option (List AuthorRef)
  cover_id : Option Int
  first_publish_year : Option Int
  subject : Option (List String)
deriving DecidableEq, Repr

structure Book where
  key : Option String
  title : Option String
  author : String
  coverImage : Option String
  year : Option Int
  subjects : Option (List String)
deriving DecidableEq, Repr

/-- `coverId ? url-template : null`: a number is truthy iff non-zero. -/
def coverUrlFromId (coverId : Option Int) : Option String :=
  match coverId with
  | some c =>
    if c = 0 then none
    else some ("https://covers.openlibrary.org/b/id/" ++ toString c ++ "-L.jpg")
  | none => none

def mapDocToBook (doc : SearchDoc) : Book :=
  { key := doc.key
    title := doc.title
    author := (doc.author_name.bind List.head?).getD "Unknown author"
    coverImage := coverUrlFromId doc.cover_i
    year := doc.first_publish_year
    subjects := doc.subject.orElse (fun _ => doc.subject_facet) }

def mapSubjectWorkToBook (w : SubjectWork) : Book :=
  { key := w.key
    title := w.title
    author := ((w.authors.bind List.head?).bind AuthorRef.name).getD
      "Unknown author"
    coverImage := coverUrlFromId w.cover_id
    year := w.first_publish_year
    subjects := w.subject }

/-! ### The recommendation assembler (`GET` of `route.ts`) -/

/-- Upstream behaviour supplied to one `GET` invocation: whether each fetch
succeeds (HTTP ok) and the optional array in its JSON body. -/
structure Env where
  searchOk : Bool
  searchDocs : Option (List SearchDoc)
  subjectOk : Bool
  subjectWorks : Option (List SubjectWork)
deriving DecidableEq, Repr

inductive NetCall where
  | search (q : String)
  | subject (slugSegment : String)
deriving DecidableEq, Repr

inductive ApiResponse where
  | errorResp (error : String) (status : Nat)
  | okResp (seed : Option Book) (recommendations : List Book)
      (message : Option String)
deriving DecidableEq, Repr

def MAX_RESULTS : Nat := 10

/-- JavaScript truthiness of a possibly-undefined string. -/
def truthyStr : Option String → Bool
  | none => false
  | some s => s != ""

def docOk (d : SearchDoc) : Bool :=
  truthyStr d.key && truthyStr d.title

/-- `searchData.docs?.filter((doc) => doc.key && doc.title) ?? []`. -/
def filteredDocs (env : Env) : List SearchDoc :=
  (env.searchDocs.map (fun ds => ds.filter docOk)).getD []

/-- `[...(seedDoc.subject ?? []), ...(seedDoc.subject_facet ?? [])]`. -/
def allSubjectsOf (d : SearchDoc) : List String :=
  d.subject.getD [] ++ d.subject_facet.getD []

/-- One iteration of the `forEach` over the pre-filtered subject works:
push unless the list already holds `MAX_RESULTS` books, recording the key. -/
def pushWorksStep (st : List Book × List (Option String))
    (work : SubjectWork) : List Book × List (Option String) :=
  if MAX_RESULTS ≤ st.1.length then st
  else (st.1 ++ [mapSubjectWorkToBook work], work.key :: st.2)

def pushWorks (works : List SubjectWork)
    (st : List Book × List (Option String)) :
    List Book × List (Option String) :=
  works.foldl pushWorksStep st

/-- One iteration of the fallback `forEach` over the remaining search docs:
skip already-used keys, push unless the list already holds `MAX_RESULTS`. -/
def pushDocsStep (st : List Book × List (Option String))
    (doc : SearchDoc) : List Book × List (Option String) :=
  if MAX_RESULTS ≤ st.1.length || st.2.contains doc.key then st
  else (st.1 ++ [mapDocToBook doc], doc.key :: st.2)

def pushDocs (docs : List SearchDoc)
    (st : List Book × List (Option String)) :
    List Book × List (Option String) :=
  docs.foldl pushDocsStep st

/-- The `if (primarySubject) { ... }` block.  The works array is filtered
against `uniqueKeys` BEFORE the pushing `forEach` runs, so the filter only
ever sees the keys known at that moment (the seed's). -/
def subjectPhase (env : Env) (seedDoc : SearchDoc)
    (st : List Book × List (Option String)) :
    (List Book × List (Option String)) × List NetCall :=
  match (allSubjectsOf seedDoc).head? with
  | none => (st, [])
  | some ps =>
    if ps = "" then (st, [])
    else
      let call := NetCall.subject (encodeURIComponent (subjectSlug ps))
      if env.subjectOk then
        match env.subjectWorks with
        | none => (st, [call])
        | some works =>
          (pushWorks
            (works.filter (fun w => truthyStr w.key && !(st.2.contains w.key)))
            st, [call])
      else (st, [call])

/-- The whole `GET` handler, as a pure function of the query parameter and
the upstream environment; returns the response and the network calls made. -/
def recommend (rawQuery : Option String) (env : Env) :
    ApiResponse × List NetCall :=
  match rawQuery.map jsTrim with
  | none => (ApiResponse.errorResp "Missing required query parameter." 400, [])
  | some q =>
    if q = "" then
      (ApiResponse.errorResp "Missing required query parameter." 400, [])
    else if utf16Length q < 2 then
      (ApiResponse.errorResp "Query must be at least 2 characters long." 400,
       [])
    else if !env.searchOk then
      (ApiResponse.errorResp "Unable to reach the Open Library search service."
        502, [NetCall.search q])
    else
      match filteredDocs env with
      | [] =>
        (ApiResponse.okResp none []
          (some "We could not find any matches for that book."),
         [NetCall.search q])
      | seedDoc :: rest =>
        let seedBook := mapDocToBook seedDoc
        let st1 := subjectPhase env seedDoc ([], [seedBook.key])
        let st2 :=
          if (st1.1.1).length < MAX_RESULTS then pushDocs rest st1.1 else st1.1
        (ApiResponse.okResp (some seedBook) (st2.1.take MAX_RESULTS) none,
         NetCall.search q :: st1.2)

/-! ### Shelf service (`POST` of the saved-books route) -/

structure SavedBook where
  key : Option String
  title : Option String
  author : String
  coverImage : Option String
  year : Option Int
  subjects : Option (List String)
  savedAt : String
deriving DecidableEq, Repr

structure CreateResult where
  id : String
  rev : String
deriving DecidableEq, Repr

inductive SaveResponse where
  | errorResp (error : String) (status : Nat)
  | okSave (id : String) (rev : String) (savedAt : String)
deriving DecidableEq, Repr

/-- The parsed request body `{ book?: Book }`. -/
structure SaveBody where
  book : Option Book
deriving DecidableEq, Repr

/-- `{ ...book, savedAt: new Date().toISOString() }`: spread the book's
fields and stamp `savedAt`. -/
def stampSavedAt (b : Book) (ts : String) : SavedBook :=
  { key := b.key, title := b.title, author := b.author,
    coverImage := b.coverImage, year := b.year, subjects := b.subjects,
    savedAt := ts }

/-- The CouchDB connection configuration resolved once at process start in
`lib/couchdb`: `resolvedBaseUrl` is absent when `COUCHDB_URL` is unset,
`dbName` is `COUCHDB_DATABASE ?? "saved_books"`. -/
structure CouchConfig where
  resolvedBaseUrl : Option String
  dbName : String
deriving DecidableEq, Repr

/-- Outcome of the `fetch` inside `couchRequest`: an ok response whose JSON
parses as `{id, rev}`, or a non-ok response with status, status text and
body text. -/
inductive CouchFetchResult where
  | ok (r : CreateResult)
  | fail (status : Nat) (statusText : String) (text : String)
deriving DecidableEq, Repr

/-- One outbound CouchDB request: the path appended to the base URL and the
JSON-serialized document sent as the request body. -/
structure CouchCall where
  path : String
  doc : SavedBook
deriving DecidableEq, Repr

/-- `couchRequest` from `lib/couchdb`, for the POST shape `createDocument`
uses: throw `Missing CouchDB configuration` when no base URL is configured;
otherwise issue the request and either return the parsed `{id, rev}` or
throw `CouchDB request failed (status statusText): text`.  The upstream
store's behaviour is the function `fetchResp`; the calls made are returned
alongside the result. -/
def couchRequest (cfg : CouchConfig)
    (fetchResp : String → SavedBook → CouchFetchResult)
    (path : String) (doc : SavedBook) :
    Except String CreateResult × List CouchCall :=
  match cfg.resolvedBaseUrl with
  | none => (Except.error "Missing CouchDB configuration (COUCHDB_URL).", [])
  | some _ =>
    match fetchResp path doc with
    | CouchFetchResult.ok r => (Except.ok r, [{ path := path, doc := doc }])
    | CouchFetchResult.fail status statusText text =>
      (Except.error ("CouchDB request failed (" ++ toString status ++ " " ++
        statusText ++ "): " ++ text), [{ path := path, doc := doc }])

/-- `createDocument` from `lib/couchdb`: POST the document to `/${dbName}`. -/
def createDocument (cfg : CouchConfig)
    (fetchResp : String → SavedBook → CouchFetchResult) (doc : SavedBook) :
    Except String CreateResult × List CouchCall :=
  couchRequest cfg fetchResp ("/" ++ cfg.dbName) doc

/-- The `POST` handler of the saved-books route, as a pure function of the
parsed body, the current timestamp (`new Date().toISOString()`, supplied as
the abstract string `nowIso`), the store configuration and the store's
response behaviour.  Returns the response and the CouchDB calls made. -/
def savePOST (body : SaveBody) (nowIso : String) (cfg : CouchConfig)
    (fetchResp : String → SavedBook → CouchFetchResult) :
    SaveResponse × List CouchCall :=
  match body.book with
  | none => (SaveResponse.errorResp "Body must include a book payload." 400,
      [])
  | some b =>
    let payload : SavedBook := stampSavedAt b nowIso
    match createDocument cfg fetchResp payload with
    | (Except.ok r, calls) =>
      (SaveResponse.okSave r.id r.rev payload.savedAt, calls)
    | (Except.error e, calls) => (SaveResponse.errorResp e 500, calls)

/-! ### Projections and concrete fixtures used by the theorems -/

/-- The recommendations carried by a response (an error carries none). -/
def recommendationsOf : ApiResponse → List Book
  | ApiResponse.errorResp _ _ => []
  | ApiResponse.okResp _ recs _ => recs

def seedDocF : SearchDoc :=
  { key := some "/works/S", title := some "Seed", author_name := none,
    cover_i := none, first_publish_year := none, subject := some ["Fantasy"],
    subject_facet := none }

def d1F : SearchDoc :=
  { key := some "/works/T", title := some "Two", author_name := none,
    cover_i := none, first_publish_year := none, subject := none,
    subject_facet := none }

def docNoTitleF : SearchDoc :=
  { key := some "/works/N", title := none, author_name := none,
    cover_i := none, first_publish_year := none, subject := none,
    subject_facet := none }

def docZeroCoverF : SearchDoc :=
  { key := some "/works/Z", title := some "Zero", author_name := none,
    cover_i := some 0, first_publish_year := none, subject := none,
    subject_facet := none }

def workAF : SubjectWork :=
  { key := some "/works/A", title := some "A", authors := none,
    cover_id := none, first_publish_year := none, subject := none }

def workNoTitleF : SubjectWork :=
  { key := some "/works/B", title := none, authors := none,
    cover_id := none, first_publish_year := none, subject := none }

def workZeroCoverF : SubjectWork :=
  { key := some "/works/Y", title := some "Why", authors := none,
    cover_id := some 0, first_publish_year := none, subject := none }

def envDupBugF : Env :=
  { searchOk := true, searchDocs := some [seedDocF], subjectOk := true,
    subjectWorks := some [workAF, workAF] }

def envNoTitleF : Env :=
  { searchOk := true, searchDocs := some [seedDocF], subjectOk := true,
    subjectWorks := some [workNoTitleF] }

def envFallbackF : Env :=
  { searchOk := true, searchDocs := some [seedDocF, d1F], subjectOk := false,
    subjectWorks := some [workAF] }

def envNoMatchesF : Env :=
  { searchOk := true, searchDocs := some [docNoTitleF], subjectOk := true,
    subjectWorks := none }

def bookDuneF : Book :=
  { key := some "/works/OL1W", title := some "Dune", author := "Frank Herbert",
    coverImage := none, year := none, subjects := none }

def couchCfgF : CouchConfig :=
  { resolvedBaseUrl := some "http://127.0.0.1:5984", dbName := "saved_books" }

def couchFetchOkF : String → SavedBook → CouchFetchResult :=
  fun _ _ => CouchFetchResult.ok { id := "doc-1", rev := "1-abc" }

/-! ### Shared lemmas -/

theorem collapseWsAux_true_eq (l : List Char) :
    collapseWsAux true l = collapseWsAux false (l.dropWhile isJsWhitespace) := by
  induction l with
  | nil => rfl
  | cons c cs ih =>
    by_cases hc : isJsWhitespace c
    · rw [List.dropWhile_cons_of_pos hc]
      simpa [collapseWsAux, hc] using ih
    · rw [List.dropWhile_cons_of_neg hc]
      simp [collapseWsAux, hc]

theorem specCollapseWsGo_eq (fuel : Nat) : ∀ l : List Char,
    l.length ≤ fuel → specCollapseWsGo fuel l = collapseWsAux false l := by
  induction fuel with
  | zero =>
    intro l h
    cases l with
    | nil => rfl
    | cons c cs => simp at h
  | succ fuel ih =>
    intro l h
    cases l with
    | nil => rfl
    | cons c cs =>
      by_cases hc : isJsWhitespace c
      · have hlen : (cs.dropWhile isJsWhitespace).length ≤ fuel :=
          le_trans (cs.dropWhile_sublist isJsWhitespace).length_le
            (by simpa using h)
        simp [specCollapseWsGo, collapseWsAux, hc, ih _ hlen,
          collapseWsAux_true_eq]
      · simp [specCollapseWsGo, collapseWsAux, hc,
          ih cs (by simpa using h)]

theorem collapseWs_eq_spec (l : List Char) :
    collapseWsAux false l = specCollapseWs l :=
  (specCollapseWsGo_eq l.length l le_rfl).symm

/-! ### Claim theorems -/

/-- C6: for every subject string, the slug used in the subject URL is
exactly the spec's pipeline (lower-case, strip commas/periods, collapse
whitespace runs to one underscore, percent-encode as a path segment), and
"Science Fiction, Fantasy." slugs to "science_fiction_fantasy". -/
theorem subjectSlug_matches_spec :
    (∀ s : String, subjectSlug s = specSubjectSlug s ∧
      encodeURIComponent (subjectSlug s) =
        encodeURIComponent (specSubjectSlug s)) ∧
    subjectSlug "Science Fiction, Fantasy." = "science_fiction_fantasy" ∧
    encodeURIComponent (subjectSlug "Science Fiction, Fantasy.") =
      "science_fiction_fantasy" := by
  refine ⟨fun s => ?_, by decide, by decide⟩
  have h := collapseWs_eq_spec (stripCommasPeriods (jsToLower s).toList)
  unfold subjectSlug specSubjectSlug
  rw [h]
  exact ⟨rfl, rfl⟩

/-- C7 counterexample: the cover id 0 is present yet yields no URL, because
the code tests the id by JavaScript truthiness. -/
theorem coverUrl_zero_counterexample : coverUrlFromId (some 0) = none := rfl

/-- C7 (amended): an absent cover id yields absent; every present NON-ZERO
cover id yields the fixed template URL containing that id, never the empty
string. -/
theorem coverUrl_amended :
    coverUrlFromId none = none ∧
    ∀ i : Int, i ≠ 0 →
      coverUrlFromId (some i) =
        some ("https://covers.openlibrary.org/b/id/" ++ toString i ++
          "-L.jpg") ∧
      ("https://covers.openlibrary.org/b/id/" ++ toString i ++ "-L.jpg") ≠
        "" := by
  refine ⟨rfl, fun i hi => ⟨by simp [coverUrlFromId, hi], fun h => ?_⟩⟩
  have hlen := congrArg String.length h
  rw [String.length_append, String.length_append] at hlen
  have h36 : ("https://covers.openlibrary.org/b/id/").length = 36 := rfl
  have h0 : ("" : String).length = 0 := rfl
  omega

theorem coverUrl_amended_witness :
    coverUrlFromId (some 12345) =
      some ("https://covers.openlibrary.org/b/id/" ++ toString (12345 : Int) ++
        "-L.jpg") ∧
    ("https://covers.openlibrary.org/b/id/" ++ toString (12345 : Int) ++
      "-L.jpg") ≠ "" :=
  coverUrl_amended.2 12345 (by decide)

/-- C10: a present cover id 0 is treated exactly like an absent id — no
cover URL is produced, for the function itself and through both mappers. -/
theorem coverUrl_zero_like_absent :
    coverUrlFromId (some 0) = coverUrlFromId none ∧
    coverUrlFromId (some 0) = none ∧
    (∀ d : SearchDoc, d.cover_i = some 0 →
      (mapDocToBook d).coverImage = none) ∧
    (∀ w : SubjectWork, w.cover_id = some 0 →
      (mapSubjectWorkToBook w).coverImage = none) :=
  ⟨rfl, rfl,
   fun d h => by simp [mapDocToBook, h, coverUrlFromId],
   fun w h => by simp [mapSubjectWorkToBook, h, coverUrlFromId]⟩

theorem coverUrl_zero_like_absent_witness :
    (mapDocToBook docZeroCoverF).coverImage = none ∧
    (mapSubjectWorkToBook workZeroCoverF).coverImage = none :=
  ⟨coverUrl_zero_like_absent.2.2.1 docZeroCoverF rfl,
   coverUrl_zero_like_absent.2.2.2 workZeroCoverF rfl⟩

/-- C9: subject works are admitted by key truthiness alone — a keyed work
with no title becomes a recommendation whose title is absent. -/
theorem subject_work_without_title_recommended :
    (recommend (some "dune") envNoTitleF).1 =
      ApiResponse.okResp (some (mapDocToBook seedDocF))
        [mapSubjectWorkToBook workNoTitleF] none ∧
    ∃ b ∈ recommendationsOf (recommend (some "dune") envNoTitleF).1,
      b.key = some "/works/B" ∧ b.title = none := by
  refine ⟨rfl, mapSubjectWorkToBook workNoTitleF, ?_, rfl, rfl⟩
  decide

/-- C1 (code bug): a subject-lookup response repeating one key yields two
recommendations with the same key — the works array is filtered against the
used-key set before the pushing loop runs, so keys added during the loop are
never consulted, and the spec's "no key appears twice" guarantee fails. -/
theorem recommend_duplicate_key_bug :
    (recommend (some "dune") envDupBugF).1 =
      ApiResponse.okResp (some (mapDocToBook seedDocF))
        [mapSubjectWorkToBook workAF, mapSubjectWorkToBook workAF] none ∧
    ¬ ((recommendationsOf
        (recommend (some "dune") envDupBugF).1).map Book.key).Nodup := by
  exact ⟨rfl, by decide⟩

theorem pushDocs_cons (d : SearchDoc) (ds : List SearchDoc)
    (st : List Book × List (Option String)) :
    pushDocs (d :: ds) st = pushDocs ds (pushDocsStep st d) := rfl

/-- Everything the fallback loop appends comes from the given docs in
order, and carries a key that was not in the used set it started from. -/
theorem pushDocs_spec (docs : List SearchDoc) :
    ∀ (recs : List Book) (used : List (Option String)),
    ∃ suf : List Book,
      (pushDocs docs (recs, used)).1 = recs ++ suf ∧
      suf.Sublist (docs.map mapDocToBook) ∧
      ∀ b ∈ suf, b.key ∉ used := by
  induction docs with
  | nil =>
    intro recs used
    exact ⟨[], by simp [pushDocs], List.nil_sublist _, by simp⟩
  | cons d ds ih =>
    intro recs used
    by_cases hlen : MAX_RESULTS ≤ recs.length
    · have hstep : pushDocsStep (recs, used) d = (recs, used) := by
        simp [pushDocsStep, hlen]
      rw [pushDocs_cons, hstep]
      obtain ⟨suf, h1, h2, h3⟩ := ih recs used
      exact ⟨suf, h1, by simpa using h2.cons (mapDocToBook d), h3⟩
    · by_cases hmem : d.key ∈ used
      · have hstep : pushDocsStep (recs, used) d = (recs, used) := by
          simp [pushDocsStep, hmem]
        rw [pushDocs_cons, hstep]
        obtain ⟨suf, h1, h2, h3⟩ := ih recs used
        exact ⟨suf, h1, by simpa using h2.cons (mapDocToBook d), h3⟩
      · have hstep : pushDocsStep (recs, used) d =
            (recs ++ [mapDocToBook d], d.key :: used) := by
          simp [pushDocsStep, hlen, hmem]
        rw [pushDocs_cons, hstep]
        obtain ⟨suf, h1, h2, h3⟩ := ih (recs ++ [mapDocToBook d]) (d.key :: used)
        refine ⟨mapDocToBook d :: suf, ?_, ?_, ?_⟩
        · rw [h1]
          simp
        · simpa using h2.cons₂ (mapDocToBook d)
        · intro b hb
          rcases List.mem_cons.1 hb with hb | hb
          · subst hb
            simpa [mapDocToBook] using hmem
          · intro hmem'
            exact h3 b hb (List.mem_cons_of_mem _ hmem')

/-- When the subject lookup failed or there is no primary subject, the
subject phase leaves the recommendation state untouched. -/
theorem subjectPhase_inert (env : Env) (d : SearchDoc)
    (st : List Book × List (Option String))
    (h : env.subjectOk = false ∨ (allSubjectsOf d).head? = none) :
    (subjectPhase env d st).1 = st := by
  unfold subjectPhase
  rcases h with h | h
  · cases hh : (allSubjectsOf d).head? with
    | none => rfl
    | some ps =>
      by_cases hps : ps = ""
      · simp [hps]
      · simp [hps, h]
  · rw [h]

/-- C5: a failed subject lookup, or a seed with no primary subject, never
surfaces as an error — the call succeeds and the recommendations are
exactly the fallback fill from the remaining search hits: a sublist of them
in original order, with the seed's key excluded. -/
theorem recommend_subject_failure_fallback (s : String) (env : Env)
    (d0 : SearchDoc) (rest : List SearchDoc)
    (hq : 2 ≤ utf16Length (jsTrim s))
    (hok : env.searchOk = true)
    (hdocs : filteredDocs env = d0 :: rest)
    (hfail : env.subjectOk = false ∨ (allSubjectsOf d0).head? = none) :
    (recommend (some s) env).1 =
      ApiResponse.okResp (some (mapDocToBook d0))
        ((pushDocs rest ([], [(mapDocToBook d0).key])).1.take MAX_RESULTS)
        none ∧
    ((pushDocs rest ([], [(mapDocToBook d0).key])).1.take
        MAX_RESULTS).Sublist (rest.map mapDocToBook) ∧
    ∀ b ∈ (pushDocs rest ([], [(mapDocToBook d0).key])).1.take MAX_RESULTS,
      b.key ≠ (mapDocToBook d0).key := by
  have h0 : jsTrim s ≠ "" := by
    intro he
    rw [he] at hq
    simp [utf16Length] at hq
  have hin := subjectPhase_inert env d0 ([], [(mapDocToBook d0).key]) hfail
  obtain ⟨suf, h1, h2, h3⟩ := pushDocs_spec rest [] [(mapDocToBook d0).key]
  refine ⟨?_, ?_, ?_⟩
  · unfold recommend
    simp only [Option.map_some']
    rw [if_neg h0, if_neg (by omega), hok]
    simp only [Bool.not_true, Bool.false_eq_true, if_false, hdocs]
    simp [hin, MAX_RESULTS]
  · rw [h1]
    simp only [List.nil_append]
    exact (List.take_sublist _ _).trans h2
  · intro b hb
    rw [h1] at hb
    simp only [List.nil_append] at hb
    have hb' := (List.take_sublist _ _).subset hb
    simpa using h3 b hb'

theorem recommend_subject_failure_fallback_witness :
    (recommend (some "dune") envFallbackF).1 =
      ApiResponse.okResp (some (mapDocToBook seedDocF))
        ((pushDocs [d1F] ([], [(mapDocToBook seedDocF).key])).1.take
          MAX_RESULTS) none ∧
    ((pushDocs [d1F] ([], [(mapDocToBook seedDocF).key])).1.take
        MAX_RESULTS).Sublist ([d1F].map mapDocToBook) ∧
    ∀ b ∈ (pushDocs [d1F] ([], [(mapDocToBook seedDocF).key])).1.take
        MAX_RESULTS, b.key ≠ (mapDocToBook seedDocF).key :=
  recommend_subject_failure_fallback "dune" envFallbackF seedDocF [d1F]
    (by decide) rfl (by decide) (Or.inl rfl)

/-- C2: every successful response carries at most `MAX_RESULTS = 10`
recommendations. -/
theorem recommend_at_most_ten (rawQuery : Option String) (env : Env)
    (seed : Option Book) (recs : List Book) (msg : Option String)
    (h : (recommend rawQuery env).1 = ApiResponse.okResp seed recs msg) :
    recs.length ≤ MAX_RESULTS := by
  unfold recommend at h
  cases rawQuery with
  | none => simp at h
  | some s =>
    simp only [Option.map_some'] at h
    split at h
    · simp at h
    split at h
    · simp at h
    split at h
    · simp at h
    split at h
    · injection h with h1 h2 h3
      subst h2
      simp
    · injection h with h1 h2 h3
      subst h2
      simp [List.length_take]

theorem recommend_at_most_ten_witness :
    ([mapDocToBook d1F] : List Book).length ≤ MAX_RESULTS :=
  recommend_at_most_ten (some "dune") envFallbackF (some (mapDocToBook seedDocF))
    [mapDocToBook d1F] none rfl

/-- C3: a missing query, or one whose trimmed form is shorter than two
UTF-16 units, is rejected with a 400 error body before any network call. -/
theorem recommend_rejects_short_query (rawQuery : Option String) (env : Env)
    (h : ∀ s, rawQuery = some s → utf16Length (jsTrim s) < 2) :
    ∃ msg, msg ≠ "" ∧
      recommend rawQuery env = (ApiResponse.errorResp msg 400, []) := by
  cases rawQuery with
  | none =>
    exact ⟨"Missing required query parameter.", by decide, rfl⟩
  | some s =>
    have hs := h s rfl
    unfold recommend
    simp only [Option.map_some']
    by_cases h0 : jsTrim s = ""
    · rw [if_pos h0]
      exact ⟨"Missing required query parameter.", by decide, rfl⟩
    · rw [if_neg h0, if_pos hs]
      exact ⟨"Query must be at least 2 characters long.", by decide, rfl⟩

theorem recommend_rejects_short_query_witness :
    ∃ msg, msg ≠ "" ∧
      recommend (some " a ") envFallbackF =
        (ApiResponse.errorResp msg 400, []) :=
  recommend_rejects_short_query (some " a ") envFallbackF
    (fun s hs => by cases hs; decide)

/-- C4: when no search hit has both a truthy key and a truthy title, the
call still succeeds (HTTP 200 shape) with a null seed, no recommendations
and a non-empty message. -/
theorem recommend_no_matches_success (s : String) (env : Env)
    (hq : 2 ≤ utf16Length (jsTrim s))
    (hok : env.searchOk = true)
    (hnone : ∀ d ∈ env.searchDocs.getD [], docOk d = false) :
    recommend (some s) env =
      (ApiResponse.okResp none []
        (some "We could not find any matches for that book."),
       [NetCall.search (jsTrim s)]) ∧
    "We could not find any matches for that book." ≠ "" := by
  have h0 : jsTrim s ≠ "" := by
    intro he
    rw [he] at hq
    simp [utf16Length] at hq
  have hfd : filteredDocs env = [] := by
    unfold filteredDocs
    cases hd : env.searchDocs with
    | none => rfl
    | some ds =>
      rw [hd] at hnone
      simp only [Option.map_some', Option.getD_some]
      exact List.filter_eq_nil_iff.2 (fun d hdm => by simp [hnone d hdm])
  refine ⟨?_, by decide⟩
  unfold recommend
  simp only [Option.map_some']
  rw [if_neg h0, if_neg (by omega), hok]
  simp [hfd]

theorem recommend_no_matches_success_witness :
    recommend (some "dune") envNoMatchesF =
      (ApiResponse.okResp none []
        (some "We could not find any matches for that book."),
       [NetCall.search (jsTrim "dune")]) ∧
    "We could not find any matches for that book." ≠ "" :=
  recommend_no_matches_success "dune" envNoMatchesF (by decide) rfl
    (fun d hd => by
      simp [envNoMatchesF] at hd
      subst hd
      decide)

/-- C8: the save route rejects a body without a book payload with a 400
error and issues no store call; otherwise it stamps `savedAt` with the
current timestamp onto the book, persists exactly that stamped document as
a new document (one POST of it to the database path), and returns the
store-assigned id and rev together with exactly the stamp it persisted. -/
theorem savePOST_contract (body : SaveBody) (nowIso : String)
    (cfg : CouchConfig)
    (fetchResp : String → SavedBook → CouchFetchResult) :
    (body.book = none →
      savePOST body nowIso cfg fetchResp =
        (SaveResponse.errorResp "Body must include a book payload." 400,
         [])) ∧
    (∀ b r u, body.book = some b → cfg.resolvedBaseUrl = some u →
      fetchResp ("/" ++ cfg.dbName) (stampSavedAt b nowIso) =
        CouchFetchResult.ok r →
      savePOST body nowIso cfg fetchResp =
        (SaveResponse.okSave r.id r.rev nowIso,
         [{ path := "/" ++ cfg.dbName, doc := stampSavedAt b nowIso }]) ∧
      (stampSavedAt b nowIso).savedAt = nowIso) := by
  constructor
  · intro h
    unfold savePOST
    rw [h]
  · intro b r u hb hu hr
    unfold savePOST createDocument couchRequest
    rw [hb]
    simp only [stampSavedAt] at hr
    simp [stampSavedAt, hu, hr]

theorem savePOST_contract_witness :
    savePOST ⟨some bookDuneF⟩ "2024-01-01T00:00:00.000Z" couchCfgF
        couchFetchOkF =
      (SaveResponse.okSave "doc-1" "1-abc" "2024-01-01T00:00:00.000Z",
       [{ path := "/" ++ couchCfgF.dbName,
          doc := stampSavedAt bookDuneF "2024-01-01T00:00:00.000Z" }]) ∧
    (stampSavedAt bookDuneF "2024-01-01T00:00:00.000Z").savedAt =
      "2024-01-01T00:00:00.000Z" :=
  (savePOST_contract ⟨some bookDuneF⟩ "2024-01-01T00:00:00.000Z" couchCfgF
      couchFetchOkF).2
    bookDuneF ⟨"doc-1", "1-abc"⟩ "http://127.0.0.1:5984" rfl rfl rfl

end BookRec
